import Mathlib

/-!
Shallow embedding of the transaction-batch orchestrator of the omen-exchange
repository: the `CPKService` workflows (buy, sell, create market, add funding,
remove funding, redeem) and the `ConditionalTokenService` queries they rely on.

Each workflow is translated from the source as a linear chain: query phase
(chain reads, modelled as `Option`-valued environment fields where `none`
stands for a transport failure), conditional build phase (the imperative
`transactions.push`/`unshift` calls become list construction in source order),
and a single submission recorded in an explicit trace of `Submission` values.
-/

/-- Addresses and other chain identifiers are kept as strings, as in the
TypeScript source where they are hex strings compared with `===`. -/
abbrev Address := String

/-- Sentinel address used by the source (`util/networks`) to mark the chain's
native asset as the chosen collateral; workflows compare collateral addresses
against it with strict equality. -/
def pseudoEthAddress : Address := "0x0000000000000000000000000000000000000000"

/-- The zero hash `ethers.constants.HashZero`, used by the conditional-token
service as the parent collection id. -/
def hashZero : String :=
  "0x0000000000000000000000000000000000000000000000000000000000000000"

/-- One entry of `marketData.outcomes`: a display name and a probability used
for the distribution hint. -/
structure Outcome where
  name : String
  probability : Nat
  deriving DecidableEq

/-- Deterministic condition identifier `getConditionId(questionId, oracle,
outcomeSlotCount)`: a pure, injective function of its three inputs, modelled
as the triple itself. -/
structure ConditionId where
  questionId : String
  oracle : Address
  outcomeSlotCount : Nat
  deriving DecidableEq

/-- A Realitio question as consumed by `OracleService.encodeResolveCondition`. -/
structure Question where
  id : String
  templateId : Nat
  raw : String
  deriving DecidableEq

/-- The logical operation encoded into a call's payload. The per-contract
encoders (`encodeTransferFrom`, `encodeBuy`, ...) are injective byte encoders;
the embedding keeps them symbolic as constructors carrying exactly the
arguments the source passes. -/
inductive CallData where
  | transferFrom (account : Address) (toAccount : Address) (amount : Nat)
  | transfer (account : Address) (amount : Nat)
  | approveUnlimited (spender : Address)
  | buy (amount : Nat) (outcomeIndex : Nat) (minOutcomeTokens : Nat)
  | sell (amount : Nat) (outcomeIndex : Nat) (maxOutcomeTokens : Nat)
  | setApprovalForAll (operator : Address) (approved : Bool)
  | askQuestion (question : String) (outcomes : List Outcome) (category : String)
      (arbitratorAddress : Address) (openingDate : Nat) (networkId : Nat)
  | prepareCondition (questionId : String) (oracle : Address) (outcomeSlotCount : Nat)
  | addFunding (amount : Nat)
  | removeFunding (sharesToBurn : Nat)
  | mergePositions (collateral : Address) (conditionId : String)
      (outcomesCount : Nat) (amount : Nat)
  | redeemPositions (collateral : Address) (conditionId : String) (numOutcomes : Nat)
  | resolveCondition (questionId : String) (templateId : Nat) (raw : String)
      (numOutcomes : Nat)
  | createMarketMaker (saltNonce : Nat) (conditionalTokens : Address)
      (collateral : Address) (conditionId : ConditionId) (spread : Nat)
      (funding : Nat) (distributionHint : List Nat)
  | changeMasterCopy (implementation : Address)
  deriving DecidableEq

/-- One call descriptor of a batch, as pushed by the workflows: a target, an
optional payload and an optional attached native value (the wrap step pushes
`\x7b to, value \x7d` with no payload). -/
structure Transaction where
  «to» : Address
  data : Option CallData := none
  value : Option Nat := none
  deriving DecidableEq

/-- An ordered batch of call descriptors. -/
abbrev Batch := List Transaction

/-- One call to `cpk.execTransactions(transactions, txOptions)`: the batch and
the aggregate native value from `txOptions.value`. -/
structure Submission where
  transactions : Batch
  value : Option Nat := none
  deriving DecidableEq

/-- Failure causes of a workflow, mirroring where the TypeScript code throws:
a precondition check, an awaited chain read, the submission itself, or the
wait for inclusion. Errors are logged and re-raised unchanged by the source's
catch blocks. -/
inductive WorkflowError where
  | precondition (msg : String)
  | queryFailed
  | submitFailed
  | waitFailed
  deriving DecidableEq

/-- Final phase shared by all workflows: record the single
`execTransactions` submission in the trace, then propagate a submission or
wait failure, or return the workflow's result. -/
def submitAndWait {α : Type} (result : α) (transactions : Batch)
    (value : Option Nat) (execResult : Option Nat) (waitResult : Option Unit) :
    Except WorkflowError α × List Submission :=
  let sub : Submission := { transactions := transactions, value := value }
  match execResult with
  | none => (Except.error WorkflowError.submitFailed, [sub])
  | some _hash =>
    match waitResult with
    | none => (Except.error WorkflowError.waitFailed, [sub])
    | some _receipt => (Except.ok result, [sub])

/-- Modelled from the spec: `ERC20Service.hasEnoughAllowance` is not part of
the provided sources (only its call sites are); the spec states that the
approve step is skipped exactly when allowance(proxy to market) is at least
the requested amount, so the predicate is `amount ≤ allowance`. -/
def hasEnoughAllowance (allowance : Nat) (amount : Nat) : Bool :=
  amount ≤ allowance

namespace ConditionalTokenService

/-- On-chain state of one condition as read by the service: the payout
denominator and the per-index payout numerators (all zero until the oracle
reports payouts). -/
structure ConditionState where
  payoutDenominator : Nat
  payoutNumerators : Nat → Nat

/-- The two members of the `WinnerOutcome` enum that the source references. -/
inductive WinnerOutcome where
  | Yes
  | No
  deriving DecidableEq

/-- `isConditionResolved`: reads `payoutDenominator(conditionId)` and returns
whether it is non-zero. -/
def isConditionResolved (c : ConditionState) : Bool :=
  !(c.payoutDenominator == 0)

/-- `getWinnerOutcome`: reads `payoutNumerators(conditionId, 0)` and returns
`No` when it is zero and `Yes` otherwise; no other result is possible. -/
def getWinnerOutcome (c : ConditionState) : WinnerOutcome :=
  if c.payoutNumerators 0 == 0 then WinnerOutcome.No else WinnerOutcome.Yes

/-- Argument tuple of the on-chain `redeemPositions(collateralToken,
parentCollectionId, conditionId, indexSets)` call. -/
structure RedeemPositionsCall where
  collateralToken : Address
  parentCollectionId : String
  conditionId : String
  indexSets : List Nat
  deriving DecidableEq

/-- The static `ConditionalTokenService.redeemPositions`: submits the call
with `ethers.constants.HashZero` as the parent collection id and the literal
index sets `[1, 2]`. The `networkId` argument is used by the source only to
look up the contract address. -/
def redeemPositions (collateralToken : Address) (conditionId : String)
    (networkId : Nat) : RedeemPositionsCall :=
  { collateralToken := collateralToken
    parentCollectionId := hashZero
    conditionId := conditionId
    indexSets := [1, 2] }

end ConditionalTokenService

/-- JavaScript's `String.prototype.toLowerCase` restricted to the ASCII hex
addresses it is applied to. -/
def jsToLower (s : String) : String :=
  s.map Char.toLower

namespace CPKService

/-- `proxyIsUpToDate`: true only when the proxy is deployed and its
`masterCopy()` equals the target implementation after lowercasing both. -/
def proxyIsUpToDate (deployed : Bool) (implementation : Address)
    (targetImplementation : Address) : Bool :=
  if deployed then
    if jsToLower implementation = jsToLower targetImplementation then true
    else false
  else false

/-- `CPKBuyOutcomesParams` (the `marketMaker` reference is resolved into the
environment below). -/
structure BuyOutcomesParams where
  amount : Nat
  outcomeIndex : Nat
  deriving DecidableEq

/-- Chain reads and collaborator results consumed by `buyOutcomes`, in source
order; `none` models a transport failure of the awaited call. -/
structure BuyOutcomesEnv where
  account : Option Address
  collateralAddress : Option Address
  marketMakerAddress : Address
  cpkAddress : Address
  calcBuyAmount : Option Nat
  allowance : Option Nat
  execTransactions : Option Nat
  waitForTransaction : Option Unit

/-- `buyOutcomes`: builds `[transferFrom, buy]`, then unshifts an unlimited
approve when the proxy's allowance to the market maker is insufficient, and
submits once. -/
def buyOutcomes (p : BuyOutcomesParams) (env : BuyOutcomesEnv) :
    Except WorkflowError Unit × List Submission :=
  match env.account with
  | none => (Except.error WorkflowError.queryFailed, [])
  | some account =>
    match env.collateralAddress with
    | none => (Except.error WorkflowError.queryFailed, [])
    | some collateralAddress =>
      match env.calcBuyAmount with
      | none => (Except.error WorkflowError.queryFailed, [])
      | some outcomeTokensToBuy =>
        -- Step 2 and Step 3 of the source: transfer collateral to the CPK,
        -- then buy outcome tokens with the CPK.
        let transactions : Batch :=
          [ { «to» := collateralAddress
              data := some (CallData.transferFrom account env.cpkAddress p.amount) },
            { «to» := env.marketMakerAddress
              data := some (CallData.buy p.amount p.outcomeIndex outcomeTokensToBuy) } ]
        match env.allowance with
        | none => (Except.error WorkflowError.queryFailed, [])
        | some allowance =>
          -- Step 1 of the source, unshifted only on insufficient allowance.
          let transactions :=
            if hasEnoughAllowance allowance p.amount then transactions
            else
              { «to» := collateralAddress
                data := some (CallData.approveUnlimited env.marketMakerAddress) }
                :: transactions
          submitAndWait () transactions none env.execTransactions
            env.waitForTransaction

/-- `CPKSellOutcomesParams`. -/
structure SellOutcomesParams where
  amount : Nat
  outcomeIndex : Nat
  deriving DecidableEq

/-- Chain reads consumed by `sellOutcomes`, in source order. -/
structure SellOutcomesEnv where
  account : Option Address
  calcSellAmount : Option Nat
  collateralAddress : Option Address
  isApprovedForAll : Option Bool
  marketMakerAddress : Address
  conditionalTokensAddress : Address
  cpkAddress : Address
  execTransactions : Option Nat
  waitForTransaction : Option Unit

/-- `sellOutcomes`: pushes `setApprovalForAll` only when the proxy has not yet
approved the market maker as operator, then `sell` and the collateral
`transfer` to the user, and submits once. -/
def sellOutcomes (p : SellOutcomesParams) (env : SellOutcomesEnv) :
    Except WorkflowError Unit × List Submission :=
  match env.account with
  | none => (Except.error WorkflowError.queryFailed, [])
  | some account =>
    match env.calcSellAmount with
    | none => (Except.error WorkflowError.queryFailed, [])
    | some outcomeTokensToSell =>
      match env.collateralAddress with
      | none => (Except.error WorkflowError.queryFailed, [])
      | some collateralAddress =>
        match env.isApprovedForAll with
        | none => (Except.error WorkflowError.queryFailed, [])
        | some isAlreadyApprovedForMarketMaker =>
          let transactions : Batch :=
            if isAlreadyApprovedForMarketMaker then []
            else
              [ { «to» := env.conditionalTokensAddress
                  data := some (CallData.setApprovalForAll
                    env.marketMakerAddress true) } ]
          let transactions := transactions ++
            [ { «to» := env.marketMakerAddress
                data := some (CallData.sell p.amount p.outcomeIndex
                  outcomeTokensToSell) },
              { «to» := collateralAddress
                data := some (CallData.transfer account p.amount) } ]
          submitAndWait () transactions none env.execTransactions
            env.waitForTransaction

/-- `MarketData` as consumed by `createMarket`; the collateral token is kept
as its address, and the resolution date as an optional timestamp. -/
structure MarketData where
  arbitratorAddress : Address
  category : String
  loadedQuestionId : Option String
  outcomes : List Outcome
  question : String
  resolution : Option Nat
  spread : Nat
  collateral : Address
  funding : Nat

/-- Chain reads, config lookups and collaborator results consumed by
`createMarket`. `distributionHint` stands for the external
`calcDistributionHint` numeric collaborator and `saltNonce` for the random
salt. -/
structure CreateMarketEnv where
  account : Option Address
  networkId : Option Nat
  wethAddress : Address
  oracleAddress : Address
  conditionalTokensAddress : Address
  realitioAddress : Address
  marketMakerFactoryAddress : Address
  cpkAddress : Address
  askQuestionConstant : Option String
  doesConditionExist : Option Bool
  saltNonce : Nat
  predictedMarketMakerAddress : Option Address
  distributionHint : List Nat → List Nat
  execTransactions : Option Nat
  waitForTransaction : Option Unit

/-- `createMarket`: precondition check on the resolution time, then wrap
(native collateral only), ask question (no pre-loaded question id only),
prepare condition (only when it does not already exist), approve, transfer
funding (non-native collateral only), create market maker; one submission
carrying the funding as native value exactly in the wrap case. -/
def createMarket (marketData : MarketData) (env : CreateMarketEnv) :
    Except WorkflowError Address × List Submission :=
  match marketData.resolution with
  | none =>
    (Except.error (WorkflowError.precondition "Resolution time was not specified"), [])
  | some resolution =>
    match env.account, env.networkId with
    | some account, some networkId =>
      let txOptionsValue : Option Nat :=
        if marketData.collateral = pseudoEthAddress then some marketData.funding
        else none
      -- ultimately WETH is the collateral when funding with native ether
      let collateral : Address :=
        if marketData.collateral = pseudoEthAddress then env.wethAddress
        else marketData.collateral
      -- Step 0 of the source: wrap ether (native collateral only).
      let transactions : Batch :=
        if marketData.collateral = pseudoEthAddress then
          [ { «to» := env.wethAddress, value := some marketData.funding } ]
        else []
      -- Step 1 of the source: create the question in realitio unless a
      -- question id was pre-loaded; the question id itself comes from the
      -- pre-loaded value or from the awaited askQuestionConstant call.
      let askResult : Option (Batch × String) :=
        match marketData.loadedQuestionId with
        | some loadedQuestionId => some (transactions, loadedQuestionId)
        | none =>
          match env.askQuestionConstant with
          | none => none
          | some questionId =>
            some (transactions ++
              [ { «to» := env.realitioAddress
                  data := some (CallData.askQuestion marketData.question
                    marketData.outcomes marketData.category
                    marketData.arbitratorAddress resolution networkId) } ],
              questionId)
      match askResult with
      | none => (Except.error WorkflowError.queryFailed, [])
      | some (transactions, questionId) =>
        let conditionId : ConditionId :=
          { questionId := questionId
            oracle := env.oracleAddress
            outcomeSlotCount := marketData.outcomes.length }
        -- conditionExists is queried only when a question id was pre-loaded.
        let conditionExists : Option Bool :=
          match marketData.loadedQuestionId with
          | some _ => env.doesConditionExist
          | none => some false
        match conditionExists with
        | none => (Except.error WorkflowError.queryFailed, [])
        | some conditionExists =>
          -- Step 2 of the source: prepare the condition when missing.
          let transactions :=
            if conditionExists then transactions
            else transactions ++
              [ { «to» := env.conditionalTokensAddress
                  data := some (CallData.prepareCondition questionId
                    env.oracleAddress marketData.outcomes.length) } ]
          -- Step 3 of the source: approve collateral for the factory.
          let transactions := transactions ++
            [ { «to» := collateral
                data := some (CallData.approveUnlimited
                  env.marketMakerFactoryAddress) } ]
          -- Step 4 of the source: transfer funding from the user, skipped
          -- when funding with native ether.
          let transactions :=
            if marketData.collateral = pseudoEthAddress then transactions
            else transactions ++
              [ { «to» := collateral
                  data := some (CallData.transferFrom account env.cpkAddress
                    marketData.funding) } ]
          match env.predictedMarketMakerAddress with
          | none => (Except.error WorkflowError.queryFailed, [])
          | some predictedMarketMakerAddress =>
            -- Step 5 of the source: create the market maker.
            let distributionHint :=
              env.distributionHint (marketData.outcomes.map Outcome.probability)
            let transactions := transactions ++
              [ { «to» := env.marketMakerFactoryAddress
                  data := some (CallData.createMarketMaker env.saltNonce
                    env.conditionalTokensAddress collateral conditionId
                    marketData.spread marketData.funding distributionHint) } ]
            submitAndWait predictedMarketMakerAddress transactions
              txOptionsValue env.execTransactions env.waitForTransaction
    | _, _ => (Except.error WorkflowError.queryFailed, [])

/-- `CPKAddFundingParams`, with the collateral token kept as its address. -/
structure AddFundingParams where
  amount : Nat
  collateral : Address
  deriving DecidableEq

/-- Chain reads and config lookups consumed by `addFunding`. -/
structure AddFundingEnv where
  account : Option Address
  networkId : Option Nat
  wethAddress : Address
  allowance : Option Nat
  marketMakerAddress : Address
  cpkAddress : Address
  execTransactions : Option Nat
  waitForTransaction : Option Unit

/-- `addFunding`: wrap (native collateral only), approve on insufficient
allowance, transfer funding (non-native collateral only), add funding; one
submission carrying the amount as native value exactly in the wrap case. -/
def addFunding (p : AddFundingParams) (env : AddFundingEnv) :
    Except WorkflowError Unit × List Submission :=
  match env.account with
  | none => (Except.error WorkflowError.queryFailed, [])
  | some account =>
    match env.networkId with
    | none => (Except.error WorkflowError.queryFailed, [])
    | some _networkId =>
      let txOptionsValue : Option Nat :=
        if p.collateral = pseudoEthAddress then some p.amount else none
      let collateralAddress : Address :=
        if p.collateral = pseudoEthAddress then env.wethAddress
        else p.collateral
      -- Step 0 of the source: wrap ether (native collateral only).
      let transactions : Batch :=
        if p.collateral = pseudoEthAddress then
          [ { «to» := collateralAddress, value := some p.amount } ]
        else []
      match env.allowance with
      | none => (Except.error WorkflowError.queryFailed, [])
      | some allowance =>
        -- Step 1 of the source: approve on insufficient allowance.
        let transactions :=
          if hasEnoughAllowance allowance p.amount then transactions
          else transactions ++
            [ { «to» := collateralAddress
                data := some (CallData.approveUnlimited
                  env.marketMakerAddress) } ]
        -- Step 2 of the source: transfer funding from the user, skipped when
        -- funding with native ether.
        let transactions :=
          if p.collateral = pseudoEthAddress then transactions
          else transactions ++
            [ { «to» := collateralAddress
                data := some (CallData.transferFrom account env.cpkAddress
                  p.amount) } ]
        -- Step 3 of the source: add funding to the market.
        let transactions := transactions ++
          [ { «to» := env.marketMakerAddress
              data := some (CallData.addFunding p.amount) } ]
        submitAndWait () transactions txOptionsValue env.execTransactions
          env.waitForTransaction

/-- `CPKRemoveFundingParams`. -/
structure RemoveFundingParams where
  amountToMerge : Nat
  collateralAddress : Address
  conditionId : String
  earnings : Nat
  outcomesCount : Nat
  sharesToBurn : Nat
  deriving DecidableEq

/-- Chain reads consumed by `removeFunding` (only the signer address). -/
structure RemoveFundingEnv where
  account : Option Address
  marketMakerAddress : Address
  conditionalTokensAddress : Address
  execTransactions : Option Nat
  waitForTransaction : Option Unit

/-- `removeFunding`: unconditionally the three calls remove-funding,
merge-positions, transfer of `amountToMerge + earnings` to the user, in that
order, and one submission. -/
def removeFunding (p : RemoveFundingParams) (env : RemoveFundingEnv) :
    Except WorkflowError Unit × List Submission :=
  match env.account with
  | none => (Except.error WorkflowError.queryFailed, [])
  | some account =>
    let removeFundingTx : Transaction :=
      { «to» := env.marketMakerAddress
        data := some (CallData.removeFunding p.sharesToBurn) }
    let mergePositionsTx : Transaction :=
      { «to» := env.conditionalTokensAddress
        data := some (CallData.mergePositions p.collateralAddress
          p.conditionId p.outcomesCount p.amountToMerge) }
    -- transfer to the user the merged collateral plus the earned fees
    let transferCollateralTx : Transaction :=
      { «to» := p.collateralAddress
        data := some (CallData.transfer account
          (p.amountToMerge + p.earnings)) }
    let transactions : Batch :=
      [removeFundingTx, mergePositionsTx, transferCollateralTx]
    submitAndWait () transactions none env.execTransactions
      env.waitForTransaction

/-- `CPKRedeemParams`. The interface declares `earnedCollateral` as a
`BigNumber`, but the workflow guards the final transfer with the JavaScript
truthiness of that object, which distinguishes null/undefined from a present
value and nothing else (a `BigNumber` of value zero is truthy); the field is
therefore embedded as an `Option`. -/
structure RedeemPositionsParams where
  isConditionResolved : Bool
  question : Question
  numOutcomes : Nat
  earnedCollateral : Option Nat
  collateralTokenAddress : Address
  deriving DecidableEq

/-- Chain reads consumed by `redeemPositions`. -/
structure RedeemPositionsEnv where
  account : Option Address
  conditionId : Option String
  oracleAddress : Address
  conditionalTokensAddress : Address
  execTransactions : Option Nat
  waitForTransaction : Option Unit

/-- `redeemPositions`: pushes resolve-condition only when the condition is
not yet resolved, always pushes redeem-positions, pushes the final transfer
only when `earnedCollateral` is present (JavaScript truthiness of the
object), and submits once. -/
def redeemPositions (p : RedeemPositionsParams) (env : RedeemPositionsEnv) :
    Except WorkflowError Unit × List Submission :=
  match env.account with
  | none => (Except.error WorkflowError.queryFailed, [])
  | some account =>
    let transactions : Batch :=
      if p.isConditionResolved then []
      else
        [ { «to» := env.oracleAddress
            data := some (CallData.resolveCondition p.question.id
              p.question.templateId p.question.raw p.numOutcomes) } ]
    match env.conditionId with
    | none => (Except.error WorkflowError.queryFailed, [])
    | some conditionId =>
      let transactions := transactions ++
        [ { «to» := env.conditionalTokensAddress
            data := some (CallData.redeemPositions p.collateralTokenAddress
              conditionId p.numOutcomes) } ]
      let transactions :=
        match p.earnedCollateral with
        | some earnedCollateral => transactions ++
            [ { «to» := p.collateralTokenAddress
                data := some (CallData.transfer account earnedCollateral) } ]
        | none => transactions
      submitAndWait () transactions none env.execTransactions
        env.waitForTransaction

end CPKService

/-- A wrap call: the only descriptors the workflows build with attached
native value are the ether-wrap steps. -/
def isWrapCall (t : Transaction) : Bool :=
  t.value.isSome

/-- A transfer-funding call (`encodeTransferFrom`). -/
def isTransferFunding (t : Transaction) : Bool :=
  match t.data with
  | some (CallData.transferFrom _ _ _) => true
  | _ => false

/-- An ask-question call (`encodeAskQuestion`). -/
def isAskQuestionCall (t : Transaction) : Bool :=
  match t.data with
  | some (CallData.askQuestion _ _ _ _ _ _) => true
  | _ => false

/-- A prepare-condition call (`encodePrepareCondition`). -/
def isPrepareConditionCall (t : Transaction) : Bool :=
  match t.data with
  | some (CallData.prepareCondition _ _ _) => true
  | _ => false

/-- A resolve-condition call (`encodeResolveCondition`). -/
def isResolveConditionCall (t : Transaction) : Bool :=
  match t.data with
  | some (CallData.resolveCondition _ _ _ _) => true
  | _ => false

/-- A plain collateral transfer to the user (`encodeTransfer`). -/
def isTransferCall (t : Transaction) : Bool :=
  match t.data with
  | some (CallData.transfer _ _) => true
  | _ => false

/-! Claim theorems. -/

/-- Claim C10: the conditional-token service's `redeemPositions` always
submits the call with parent collection id equal to the zero hash and the
fixed index sets `[1, 2]`, for every input; the condition's outcome count is
not among its parameters. -/
theorem claim_c10_redeemPositions_fixed_index_sets
    (collateralToken : Address) (conditionId : String) (networkId : Nat) :
    (ConditionalTokenService.redeemPositions collateralToken conditionId
        networkId).parentCollectionId = hashZero ∧
    (ConditionalTokenService.redeemPositions collateralToken conditionId
        networkId).indexSets = [1, 2] :=
  ⟨rfl, rfl⟩

/-- Claim C9 counterexample: the all-zero condition state is not resolved,
yet `getWinnerOutcome` reports the outcome `No` for it; the query never
produces an unresolved result. -/
theorem claim_c9_counterexample :
    ConditionalTokenService.isConditionResolved
      { payoutDenominator := 0, payoutNumerators := fun _ => 0 } = false ∧
    ConditionalTokenService.getWinnerOutcome
      { payoutDenominator := 0, payoutNumerators := fun _ => 0 } =
      ConditionalTokenService.WinnerOutcome.No :=
  ⟨rfl, rfl⟩

/-- Claim C9 amended: the winning-outcome query always returns one of the two
outcomes, never an unresolved result; it returns `No` exactly when the first
outcome's payout numerator is zero, which is in particular the case for every
condition that has not been resolved. -/
theorem claim_c9_amended_getWinnerOutcome
    (c : ConditionalTokenService.ConditionState) :
    (ConditionalTokenService.getWinnerOutcome c =
        ConditionalTokenService.WinnerOutcome.No ∨
      ConditionalTokenService.getWinnerOutcome c =
        ConditionalTokenService.WinnerOutcome.Yes) ∧
    (ConditionalTokenService.getWinnerOutcome c =
        ConditionalTokenService.WinnerOutcome.No ↔
      c.payoutNumerators 0 = 0) := by
  unfold ConditionalTokenService.getWinnerOutcome
  by_cases h : c.payoutNumerators 0 = 0 <;> simp [h]

/-- Claim C7: `proxyIsUpToDate` is true exactly when the proxy is deployed
and the deployed implementation address case-insensitively matches the target
implementation address; it is false whenever the proxy is undeployed or the
lowercased addresses differ. -/
theorem claim_c7_proxyIsUpToDate (deployed : Bool)
    (implementation targetImplementation : Address) :
    CPKService.proxyIsUpToDate deployed implementation targetImplementation =
        true ↔
      deployed = true ∧
        jsToLower implementation = jsToLower targetImplementation := by
  unfold CPKService.proxyIsUpToDate
  cases deployed <;> by_cases h : jsToLower implementation = jsToLower targetImplementation <;>
    simp [h]

/-- Claim C6: when no resolution time is supplied, `createMarket` fails with
the precondition error before anything else: the result is the same for every
environment (so no query result is consulted) and the submission trace is
empty. -/
theorem claim_c6_createMarket_precondition (md : CPKService.MarketData)
    (env : CPKService.CreateMarketEnv) (h : md.resolution = none) :
    CPKService.createMarket md env =
      (Except.error (WorkflowError.precondition "Resolution time was not specified"),
        []) := by
  unfold CPKService.createMarket
  rw [h]

/-- Concrete market data with a missing resolution time, for the C6 witness. -/
def marketDataNoResolution : CPKService.MarketData :=
  { arbitratorAddress := "0xarbiter"
    category := "test"
    loadedQuestionId := none
    outcomes := [{ name := "Yes", probability := 50 },
                 { name := "No", probability := 50 }]
    question := "q?"
    resolution := none
    spread := 1
    collateral := "0xdai"
    funding := 100 }

/-- Concrete environment for the C6 witness. -/
def createMarketEnvW : CPKService.CreateMarketEnv :=
  { account := some "0xaccount"
    networkId := some 1
    wethAddress := "0xweth"
    oracleAddress := "0xoracle"
    conditionalTokensAddress := "0xconditionaltokens"
    realitioAddress := "0xrealitio"
    marketMakerFactoryAddress := "0xfactory"
    cpkAddress := "0xcpk"
    askQuestionConstant := some "0xquestion"
    doesConditionExist := some false
    saltNonce := 7
    predictedMarketMakerAddress := some "0xmarket"
    distributionHint := fun l => l
    execTransactions := some 1
    waitForTransaction := some () }

/-- Claim C6 witness: the precondition theorem applied at a concrete input. -/
theorem claim_c6_witness :
    marketDataNoResolution.resolution = none ∧
    CPKService.createMarket marketDataNoResolution createMarketEnvW =
      (Except.error (WorkflowError.precondition "Resolution time was not specified"),
        []) :=
  ⟨rfl, claim_c6_createMarket_precondition marketDataNoResolution
    createMarketEnvW rfl⟩

/-- Claim C5: whenever the signer address is obtained, `removeFunding` builds
exactly the three calls remove-funding, merge-positions,
transfer-collateral, in that order, for every input, and the amount of the
final transfer is exactly `amountToMerge + earnings`. -/
theorem claim_c5_removeFunding (p : CPKService.RemoveFundingParams)
    (env : CPKService.RemoveFundingEnv) (account : Address)
    (hacc : env.account = some account) :
    (CPKService.removeFunding p env).2.map Submission.transactions =
      [ [ { «to» := env.marketMakerAddress
            data := some (CallData.removeFunding p.sharesToBurn) },
          { «to» := env.conditionalTokensAddress
            data := some (CallData.mergePositions p.collateralAddress
              p.conditionId p.outcomesCount p.amountToMerge) },
          { «to» := p.collateralAddress
            data := some (CallData.transfer account
              (p.amountToMerge + p.earnings)) } ] ] := by
  unfold CPKService.removeFunding submitAndWait
  rw [hacc]
  cases env.execTransactions <;> cases env.waitForTransaction <;> rfl

/-- Concrete parameters for the C5 witness. -/
def removeFundingParamsW : CPKService.RemoveFundingParams :=
  { amountToMerge := 40
    collateralAddress := "0xdai"
    conditionId := "0xcondition"
    earnings := 2
    outcomesCount := 2
    sharesToBurn := 10 }

/-- Concrete environment for the C5 witness. -/
def removeFundingEnvW : CPKService.RemoveFundingEnv :=
  { account := some "0xaccount"
    marketMakerAddress := "0xmarket"
    conditionalTokensAddress := "0xconditionaltokens"
    execTransactions := some 1
    waitForTransaction := some () }

/-- Claim C5 witness: the remove-funding theorem applied at a concrete input;
the final transfer carries 40 + 2 = 42. -/
theorem claim_c5_witness :
    removeFundingEnvW.account = some "0xaccount" ∧
    (CPKService.removeFunding removeFundingParamsW removeFundingEnvW).2.map
        Submission.transactions =
      [ [ { «to» := "0xmarket", data := some (CallData.removeFunding 10) },
          { «to» := "0xconditionaltokens"
            data := some (CallData.mergePositions "0xdai" "0xcondition" 2 40) },
          { «to» := "0xdai", data := some (CallData.transfer "0xaccount" 42) } ] ] := by
  refine ⟨rfl, ?_⟩
  have h := claim_c5_removeFunding removeFundingParamsW removeFundingEnvW
    "0xaccount" rfl
  simpa using h

/-- Claim C1: whenever the buy-outcomes query phase succeeds, an allowance of
at least the requested amount yields exactly the two calls transfer then buy,
and an insufficient allowance yields exactly three calls with the unlimited
approve first, then transfer, then buy. -/
theorem claim_c1_buyOutcomes_batch (p : CPKService.BuyOutcomesParams)
    (env : CPKService.BuyOutcomesEnv) (account collateralAddress : Address)
    (outcomeTokensToBuy allowance : Nat)
    (hacc : env.account = some account)
    (hcol : env.collateralAddress = some collateralAddress)
    (hbuy : env.calcBuyAmount = some outcomeTokensToBuy)
    (hall : env.allowance = some allowance) :
    (p.amount ≤ allowance →
      (CPKService.buyOutcomes p env).2.map Submission.transactions =
        [ [ { «to» := collateralAddress
              data := some (CallData.transferFrom account env.cpkAddress p.amount) },
            { «to» := env.marketMakerAddress
              data := some (CallData.buy p.amount p.outcomeIndex
                outcomeTokensToBuy) } ] ]) ∧
    (allowance < p.amount →
      (CPKService.buyOutcomes p env).2.map Submission.transactions =
        [ [ { «to» := collateralAddress
              data := some (CallData.approveUnlimited env.marketMakerAddress) },
            { «to» := collateralAddress
              data := some (CallData.transferFrom account env.cpkAddress p.amount) },
            { «to» := env.marketMakerAddress
              data := some (CallData.buy p.amount p.outcomeIndex
                outcomeTokensToBuy) } ] ]) := by
  unfold CPKService.buyOutcomes submitAndWait
  rw [hacc, hcol, hbuy, hall]
  constructor
  · intro hle
    have h : hasEnoughAllowance allowance p.amount = true := by
      simpa [hasEnoughAllowance] using hle
    cases env.execTransactions <;> cases env.waitForTransaction <;> simp [h]
  · intro hlt
    have h : hasEnoughAllowance allowance p.amount = false := by
      simp [hasEnoughAllowance]
      omega
    cases env.execTransactions <;> cases env.waitForTransaction <;> simp [h]

/-- Concrete parameters for the C1 witness. -/
def buyOutcomesParamsW : CPKService.BuyOutcomesParams :=
  { amount := 100, outcomeIndex := 1 }

/-- Concrete environment with sufficient allowance for the C1 witness. -/
def buyOutcomesEnvEnough : CPKService.BuyOutcomesEnv :=
  { account := some "0xaccount"
    collateralAddress := some "0xdai"
    marketMakerAddress := "0xmarket"
    cpkAddress := "0xcpk"
    calcBuyAmount := some 95
    allowance := some 100
    execTransactions := some 1
    waitForTransaction := some () }

/-- Concrete environment with zero allowance for the C1 witness. -/
def buyOutcomesEnvZero : CPKService.BuyOutcomesEnv :=
  { buyOutcomesEnvEnough with allowance := some 0 }

/-- Claim C1 witness: the buy-outcomes theorem applied at concrete inputs on
both sides of the allowance comparison. -/
theorem claim_c1_witness :
    buyOutcomesParamsW.amount ≤ 100 ∧ 0 < buyOutcomesParamsW.amount ∧
    ((CPKService.buyOutcomes buyOutcomesParamsW buyOutcomesEnvEnough).2.map
        Submission.transactions).length = 1 ∧
    (CPKService.buyOutcomes buyOutcomesParamsW buyOutcomesEnvZero).2.map
        Submission.transactions =
      [ [ { «to» := "0xdai", data := some (CallData.approveUnlimited "0xmarket") },
          { «to» := "0xdai", data := some (CallData.transferFrom "0xaccount" "0xcpk" 100) },
          { «to» := "0xmarket", data := some (CallData.buy 100 1 95) } ] ] := by
  refine ⟨by decide, by decide, ?_, ?_⟩
  · have h := (claim_c1_buyOutcomes_batch buyOutcomesParamsW buyOutcomesEnvEnough
      "0xaccount" "0xdai" 95 100 rfl rfl rfl rfl).1 (by decide)
    rw [h]
    rfl
  · exact (claim_c1_buyOutcomes_batch buyOutcomesParamsW buyOutcomesEnvZero
      "0xaccount" "0xdai" 95 0 rfl rfl rfl rfl).2 (by decide)

/-- Concrete redeem parameters whose computed earned collateral is present
and equal to zero, for the C2 counterexample. -/
def redeemZeroParams : CPKService.RedeemPositionsParams :=
  { isConditionResolved := true
    question := { id := "0xquestion", templateId := 2, raw := "raw" }
    numOutcomes := 2
    earnedCollateral := some 0
    collateralTokenAddress := "0xdai" }

/-- Concrete environment for the C2 counterexample. -/
def redeemZeroEnv : CPKService.RedeemPositionsEnv :=
  { account := some "0xaccount"
    conditionId := some "0xcondition"
    oracleAddress := "0xoracle"
    conditionalTokensAddress := "0xconditionaltokens"
    execTransactions := some 1
    waitForTransaction := some () }

/-- Claim C2 counterexample: with a computed earned collateral equal to zero
(a present zero-valued big number), the redeem workflow still appends the
final transfer-to-user call, because the source only tests the JavaScript
truthiness of the object, which does not distinguish zero from non-zero. -/
theorem claim_c2_counterexample :
    redeemZeroParams.earnedCollateral = some 0 ∧
    (CPKService.redeemPositions redeemZeroParams redeemZeroEnv).2.map
        Submission.transactions =
      [ [ { «to» := "0xconditionaltokens"
            data := some (CallData.redeemPositions "0xdai" "0xcondition" 2) },
          { «to» := "0xdai", data := some (CallData.transfer "0xaccount" 0) } ] ] :=
  ⟨rfl, rfl⟩

/-- Claim C2 amended: whenever the redeem query phase succeeds, the batch is
exactly the optional resolve-condition call (omitted precisely when
`isConditionResolved` is true), then the redeem-positions call, then the
final transfer-to-user call (omitted precisely when `earnedCollateral` is
absent; a present zero value still produces the transfer). In particular a
resolve-condition call appears exactly when the condition is unresolved and a
transfer call appears exactly when an earned collateral value is present, so
the two omissions are independent of each other. -/
theorem claim_c2_amended_redeemPositions (p : CPKService.RedeemPositionsParams)
    (env : CPKService.RedeemPositionsEnv) (account : Address)
    (conditionId : String)
    (hacc : env.account = some account)
    (hcond : env.conditionId = some conditionId) :
    (CPKService.redeemPositions p env).2.map Submission.transactions =
      [ (if p.isConditionResolved then [] else
          [ { «to» := env.oracleAddress
              data := some (CallData.resolveCondition p.question.id
                p.question.templateId p.question.raw p.numOutcomes) } ]) ++
        [ { «to» := env.conditionalTokensAddress
            data := some (CallData.redeemPositions p.collateralTokenAddress
              conditionId p.numOutcomes) } ] ++
        (match p.earnedCollateral with
          | some earnedCollateral =>
            [ { «to» := p.collateralTokenAddress
                data := some (CallData.transfer account earnedCollateral) } ]
          | none => []) ] ∧
    ((CPKService.redeemPositions p env).2.map Submission.transactions).all
        (fun batch => batch.any isResolveConditionCall = !p.isConditionResolved) = true ∧
    ((CPKService.redeemPositions p env).2.map Submission.transactions).all
        (fun batch => batch.any isTransferCall = p.earnedCollateral.isSome) = true := by
  unfold CPKService.redeemPositions submitAndWait
  rw [hacc, hcond]
  cases hr : p.isConditionResolved <;> cases he : p.earnedCollateral <;>
    cases env.execTransactions <;> cases env.waitForTransaction <;>
      simp [isResolveConditionCall, isTransferCall]


/-- The question id used by `createMarket`: the pre-loaded one when present,
otherwise the result of the awaited `askQuestionConstant` call. -/
def loadedOrAskedQuestionId (md : CPKService.MarketData)
    (env : CPKService.CreateMarketEnv) : Option String :=
  match md.loadedQuestionId with
  | some loadedQuestionId => some loadedQuestionId
  | none => env.askQuestionConstant

/-- The condition-existence value used by `createMarket`: the queried one
when a question id was pre-loaded, and the constant `false` (no query at all)
otherwise. -/
def queriedConditionExists (md : CPKService.MarketData)
    (env : CPKService.CreateMarketEnv) : Option Bool :=
  match md.loadedQuestionId with
  | some _ => env.doesConditionExist
  | none => some false

/-- The batch `createMarket` assembles when its query phase succeeds, written
as the concatenation of its six conditional segments in source order. -/
def createMarketBatch (md : CPKService.MarketData)
    (env : CPKService.CreateMarketEnv) (account : Address) (networkId : Nat)
    (resolution : Nat) (questionId : String) (conditionExists : Bool) : Batch :=
  (if md.collateral = pseudoEthAddress then
    [ { «to» := env.wethAddress, value := some md.funding } ]
  else []) ++
  (match md.loadedQuestionId with
    | some _ => []
    | none =>
      [ { «to» := env.realitioAddress
          data := some (CallData.askQuestion md.question md.outcomes
            md.category md.arbitratorAddress resolution networkId) } ]) ++
  (if conditionExists then []
  else
    [ { «to» := env.conditionalTokensAddress
        data := some (CallData.prepareCondition questionId env.oracleAddress
          md.outcomes.length) } ]) ++
  [ { «to» := (if md.collateral = pseudoEthAddress then env.wethAddress
               else md.collateral)
      data := some (CallData.approveUnlimited env.marketMakerFactoryAddress) } ] ++
  (if md.collateral = pseudoEthAddress then []
  else
    [ { «to» := md.collateral
        data := some (CallData.transferFrom account env.cpkAddress md.funding) } ]) ++
  [ { «to» := env.marketMakerFactoryAddress
      data := some (CallData.createMarketMaker env.saltNonce
        env.conditionalTokensAddress
        (if md.collateral = pseudoEthAddress then env.wethAddress
         else md.collateral)
        { questionId := questionId
          oracle := env.oracleAddress
          outcomeSlotCount := md.outcomes.length }
        md.spread md.funding
        (env.distributionHint (md.outcomes.map Outcome.probability))) } ]

/-- Bridging lemma: when the query phase of `createMarket` succeeds, the
submission trace is the single submission of `createMarketBatch`, carrying
the funding amount as native value exactly when the collateral is the native
asset. -/
theorem createMarket_trace (md : CPKService.MarketData)
    (env : CPKService.CreateMarketEnv) (r : Nat) (account : Address)
    (networkId : Nat) (questionId : String) (conditionExists : Bool)
    (predicted : Address)
    (hres : md.resolution = some r)
    (hacc : env.account = some account)
    (hnet : env.networkId = some networkId)
    (hask : loadedOrAskedQuestionId md env = some questionId)
    (hcond : queriedConditionExists md env = some conditionExists)
    (hpred : env.predictedMarketMakerAddress = some predicted) :
    (CPKService.createMarket md env).2 =
      [ { transactions :=
            createMarketBatch md env account networkId r questionId conditionExists
          value := if md.collateral = pseudoEthAddress then some md.funding
                   else none } ] := by
  unfold loadedOrAskedQuestionId at hask
  unfold queriedConditionExists at hcond
  unfold CPKService.createMarket submitAndWait createMarketBatch
  rw [hres, hacc, hnet]
  cases hl : md.loadedQuestionId with
  | some q =>
    rw [hl] at hask hcond
    have hask' : some q = some questionId := hask
    obtain rfl : q = questionId := by injection hask'
    have hcond' : env.doesConditionExist = some conditionExists := hcond
    rw [hcond', hpred]
    by_cases hcol : md.collateral = pseudoEthAddress <;>
      cases conditionExists <;>
        cases env.execTransactions <;> cases env.waitForTransaction <;>
          simp [hcol]
  | none =>
    rw [hl] at hask hcond
    have hask' : env.askQuestionConstant = some questionId := hask
    have hcond' : (some false : Option Bool) = some conditionExists := hcond
    obtain rfl : conditionExists = false := by
      injection hcond' with h
      exact h.symm
    rw [hask', hpred]
    by_cases hcol : md.collateral = pseudoEthAddress <;>
      cases env.execTransactions <;> cases env.waitForTransaction <;>
        simp [hcol]

/-- Claim C3: whenever the create-market query phase succeeds, funding with
the native asset makes the batch start with the wrap call carrying the
funding amount as attached value and keeps every transfer-funding call out of
the batch, while funding with a regular token keeps every value-carrying
(wrap) call out of the batch and puts a transfer-funding call into it. -/
theorem claim_c3_createMarket_wrap (md : CPKService.MarketData)
    (env : CPKService.CreateMarketEnv) (r : Nat) (account : Address)
    (networkId : Nat) (questionId : String) (conditionExists : Bool)
    (predicted : Address)
    (hres : md.resolution = some r)
    (hacc : env.account = some account)
    (hnet : env.networkId = some networkId)
    (hask : loadedOrAskedQuestionId md env = some questionId)
    (hcond : queriedConditionExists md env = some conditionExists)
    (hpred : env.predictedMarketMakerAddress = some predicted) :
    ∃ batch,
      (CPKService.createMarket md env).2.map Submission.transactions = [batch] ∧
      (md.collateral = pseudoEthAddress →
        batch.head? =
          some { «to» := env.wethAddress, value := some md.funding } ∧
        batch.all (fun t => !isTransferFunding t) = true) ∧
      (md.collateral ≠ pseudoEthAddress →
        batch.all (fun t => !isWrapCall t) = true ∧
        batch.any isTransferFunding = true) := by
  refine ⟨createMarketBatch md env account networkId r questionId conditionExists,
    ?_, fun hc => ?_, fun hc => ?_⟩
  · rw [createMarket_trace md env r account networkId questionId conditionExists
      predicted hres hacc hnet hask hcond hpred]
    rfl
  · unfold createMarketBatch
    cases md.loadedQuestionId <;> cases conditionExists <;>
      simp [hc, isTransferFunding]
  · unfold createMarketBatch
    cases md.loadedQuestionId <;> cases conditionExists <;>
      simp [hc, isTransferFunding, isWrapCall]

/-- Concrete market data funded with the native asset, for the C3 witness. -/
def marketDataNative : CPKService.MarketData :=
  { marketDataNoResolution with collateral := pseudoEthAddress
                                resolution := some 100 }

/-- Concrete market data funded with a regular token, for the C3 witness. -/
def marketDataToken : CPKService.MarketData :=
  { marketDataNoResolution with resolution := some 100 }

/-- Claim C3 witness: the create-market wrap theorem applied at one concrete
native-asset input and one concrete regular-token input. -/
theorem claim_c3_witness :
    marketDataNative.collateral = pseudoEthAddress ∧
    marketDataToken.collateral ≠ pseudoEthAddress ∧
    (∃ batch,
      (CPKService.createMarket marketDataNative createMarketEnvW).2.map
        Submission.transactions = [batch] ∧
      batch.head? = some { «to» := "0xweth", value := some 100 } ∧
      batch.all (fun t => !isTransferFunding t) = true) ∧
    (∃ batch,
      (CPKService.createMarket marketDataToken createMarketEnvW).2.map
        Submission.transactions = [batch] ∧
      batch.all (fun t => !isWrapCall t) = true ∧
      batch.any isTransferFunding = true) := by
  refine ⟨rfl, by decide, ?_, ?_⟩
  · obtain ⟨batch, h1, h2, h3⟩ := claim_c3_createMarket_wrap marketDataNative
      createMarketEnvW 100 "0xaccount" 1 "0xquestion" false "0xmarket"
      rfl rfl rfl rfl rfl rfl
    exact ⟨batch, h1, (h2 rfl).1, (h2 rfl).2⟩
  · obtain ⟨batch, h1, h2, h3⟩ := claim_c3_createMarket_wrap marketDataToken
      createMarketEnvW 100 "0xaccount" 1 "0xquestion" false "0xmarket"
      rfl rfl rfl rfl rfl rfl
    exact ⟨batch, h1, (h3 (by decide)).1, (h3 (by decide)).2⟩

/-- Concrete market data with a pre-loaded question id funded with the native
asset, for the C4 counterexample. -/
def marketDataLoadedNative : CPKService.MarketData :=
  { marketDataNative with loadedQuestionId := some "0xquestion" }

/-- Concrete environment in which the condition already exists, for the C4
counterexample. -/
def createMarketEnvExists : CPKService.CreateMarketEnv :=
  { createMarketEnvW with doesConditionExist := some true }

/-- Claim C4 counterexample: with a pre-supplied question id, an
already-existing condition and native-asset collateral, the batch does omit
the ask-question and prepare-condition calls but is not made of only the
approve, transfer-funding and create-market-maker calls: its first member is
the wrap call, which carries attached value and no payload, and no
transfer-funding call is present at all. -/
theorem claim_c4_counterexample :
    (CPKService.createMarket marketDataLoadedNative createMarketEnvExists).2.map
        Submission.transactions =
      [ [ { «to» := "0xweth", value := some 100 },
          { «to» := "0xweth", data := some (CallData.approveUnlimited "0xfactory") },
          { «to» := "0xfactory"
            data := some (CallData.createMarketMaker 7 "0xconditionaltokens"
              "0xweth"
              { questionId := "0xquestion", oracle := "0xoracle"
                outcomeSlotCount := 2 }
              1 100 [50, 50]) } ] ] ∧
    isWrapCall { «to» := "0xweth", value := some 100 } = true ∧
    ({ «to» := "0xweth", value := some 100 } : Transaction).data = none :=
  ⟨rfl, rfl, rfl⟩

/-- Claim C4 amended: with a pre-supplied question id and an already-existing
condition the batch omits the ask-question and prepare-condition calls,
containing only the approve, the conditional transfer-funding and the
create-market-maker calls, preceded by the wrap call exactly when the
collateral is the native asset; and when no pre-supplied question id is
given, condition existence is not queried (the result is the same for every
value of that query) and the prepare-condition call is always included. -/
theorem claim_c4_amended_createMarket (md : CPKService.MarketData)
    (env : CPKService.CreateMarketEnv) :
    (∀ q r account networkId predicted,
      md.loadedQuestionId = some q → md.resolution = some r →
      env.account = some account → env.networkId = some networkId →
      env.doesConditionExist = some true →
      env.predictedMarketMakerAddress = some predicted →
      (CPKService.createMarket md env).2.map Submission.transactions =
        [ (if md.collateral = pseudoEthAddress then
            [ { «to» := env.wethAddress, value := some md.funding } ]
          else []) ++
          [ { «to» := (if md.collateral = pseudoEthAddress then env.wethAddress
                       else md.collateral)
              data := some (CallData.approveUnlimited
                env.marketMakerFactoryAddress) } ] ++
          (if md.collateral = pseudoEthAddress then []
          else
            [ { «to» := md.collateral
                data := some (CallData.transferFrom account env.cpkAddress
                  md.funding) } ]) ++
          [ { «to» := env.marketMakerFactoryAddress
              data := some (CallData.createMarketMaker env.saltNonce
                env.conditionalTokensAddress
                (if md.collateral = pseudoEthAddress then env.wethAddress
                 else md.collateral)
                { questionId := q, oracle := env.oracleAddress
                  outcomeSlotCount := md.outcomes.length }
                md.spread md.funding
                (env.distributionHint (md.outcomes.map Outcome.probability))) } ] ] ∧
      ((CPKService.createMarket md env).2.map Submission.transactions).all
        (fun batch => batch.all (fun t => !isAskQuestionCall t) &&
          batch.all (fun t => !isPrepareConditionCall t)) = true) ∧
    (md.loadedQuestionId = none →
      (∀ b, CPKService.createMarket md { env with doesConditionExist := b } =
        CPKService.createMarket md env) ∧
      (∀ r account networkId questionId predicted,
        md.resolution = some r → env.account = some account →
        env.networkId = some networkId →
        env.askQuestionConstant = some questionId →
        env.predictedMarketMakerAddress = some predicted →
        ((CPKService.createMarket md env).2.map Submission.transactions).all
          (fun batch => batch.any isPrepareConditionCall) = true)) := by
  constructor
  · intro q r account networkId predicted hl hres hacc hnet hex hpred
    have htr := createMarket_trace md env r account networkId q true predicted
      hres hacc hnet
      (by unfold loadedOrAskedQuestionId; rw [hl])
      (by unfold queriedConditionExists; rw [hl]; exact hex) hpred
    rw [htr]
    unfold createMarketBatch
    rw [hl]
    constructor
    · by_cases hcol : md.collateral = pseudoEthAddress <;> simp [hcol]
    · by_cases hcol : md.collateral = pseudoEthAddress <;>
        simp [hcol, isAskQuestionCall, isPrepareConditionCall]
  · intro hl
    constructor
    · intro b
      unfold CPKService.createMarket
      cases md.resolution <;> cases env.account <;> cases env.networkId <;>
        simp [hl]
    · intro r account networkId questionId predicted hres hacc hnet hq hpred
      have htr := createMarket_trace md env r account networkId questionId
        false predicted hres hacc hnet
        (by unfold loadedOrAskedQuestionId; rw [hl]; exact hq)
        (by unfold queriedConditionExists; rw [hl]) hpred
      rw [htr]
      unfold createMarketBatch
      rw [hl]
      by_cases hcol : md.collateral = pseudoEthAddress <;>
        simp [hcol, isPrepareConditionCall]

/-- Concrete market data with a pre-loaded question id funded with a regular
token, for the C4 witness. -/
def marketDataLoadedToken : CPKService.MarketData :=
  { marketDataToken with loadedQuestionId := some "0xquestion" }

/-- Claim C4 witness: the amended create-market theorem applied at a concrete
pre-loaded-question input with an existing condition, and, for the
no-pre-loaded-question part, at a concrete input where the condition
existence query is dropped without changing the result. -/
theorem claim_c4_witness :
    marketDataLoadedToken.loadedQuestionId = some "0xquestion" ∧
    createMarketEnvExists.doesConditionExist = some true ∧
    (CPKService.createMarket marketDataLoadedToken createMarketEnvExists).2.map
        Submission.transactions =
      [ [ { «to» := "0xdai", data := some (CallData.approveUnlimited "0xfactory") },
          { «to» := "0xdai"
            data := some (CallData.transferFrom "0xaccount" "0xcpk" 100) },
          { «to» := "0xfactory"
            data := some (CallData.createMarketMaker 7 "0xconditionaltokens"
              "0xdai"
              { questionId := "0xquestion", oracle := "0xoracle"
                outcomeSlotCount := 2 }
              1 100 [50, 50]) } ] ] ∧
    marketDataToken.loadedQuestionId = none ∧
    CPKService.createMarket marketDataToken
        { createMarketEnvW with doesConditionExist := none } =
      CPKService.createMarket marketDataToken createMarketEnvW := by
  refine ⟨rfl, rfl, ?_, rfl, ?_⟩
  · have h := ((claim_c4_amended_createMarket marketDataLoadedToken
      createMarketEnvExists).1 "0xquestion" 100 "0xaccount" 1 "0xmarket"
      rfl rfl rfl rfl rfl rfl).1
    simpa using h
  · exact ((claim_c4_amended_createMarket marketDataToken
      createMarketEnvW).2 rfl).1 none

/-- The exactly-one-submission contract of a workflow run: the trace never
holds more than one submission, a successful run holds exactly one, and a run
that failed on a precondition or on a chain read (both of which happen before
the submission phase) holds none. -/
def SubmitsExactlyOnce {α : Type}
    (r : Except WorkflowError α × List Submission) : Prop :=
  r.2.length ≤ 1 ∧
  (∀ a, r.1 = Except.ok a → r.2.length = 1) ∧
  (r.1 = Except.error WorkflowError.queryFailed → r.2 = []) ∧
  (∀ msg, r.1 = Except.error (WorkflowError.precondition msg) → r.2 = [])

/-- A run that aborted with an empty trace satisfies the contract. -/
theorem submitsExactlyOnce_err {α : Type} (e : WorkflowError) :
    SubmitsExactlyOnce
      ((Except.error e : Except WorkflowError α), ([] : List Submission)) := by
  simp [SubmitsExactlyOnce]

/-- The shared submit-and-wait phase satisfies the contract: it records the
one submission and fails only with post-submission errors. -/
theorem submitsExactlyOnce_submitAndWait {α : Type} (result : α)
    (transactions : Batch) (value : Option Nat) (execResult : Option Nat)
    (waitResult : Option Unit) :
    SubmitsExactlyOnce (submitAndWait result transactions value execResult
      waitResult) := by
  cases execResult <;> cases waitResult <;>
    simp [SubmitsExactlyOnce, submitAndWait]

/-- `buyOutcomes` submits exactly once. -/
theorem buyOutcomes_submitsOnce (p : CPKService.BuyOutcomesParams)
    (env : CPKService.BuyOutcomesEnv) :
    SubmitsExactlyOnce (CPKService.buyOutcomes p env) := by
  unfold CPKService.buyOutcomes
  cases env.account <;> cases env.collateralAddress <;>
    cases env.calcBuyAmount <;> cases env.allowance
  all_goals first
    | exact submitsExactlyOnce_err _
    | exact submitsExactlyOnce_submitAndWait _ _ _ _ _

/-- `sellOutcomes` submits exactly once. -/
theorem sellOutcomes_submitsOnce (p : CPKService.SellOutcomesParams)
    (env : CPKService.SellOutcomesEnv) :
    SubmitsExactlyOnce (CPKService.sellOutcomes p env) := by
  unfold CPKService.sellOutcomes
  cases env.account <;> cases env.calcSellAmount <;>
    cases env.collateralAddress <;> cases env.isApprovedForAll
  all_goals first
    | exact submitsExactlyOnce_err _
    | exact submitsExactlyOnce_submitAndWait _ _ _ _ _

/-- `createMarket` submits exactly once. -/
theorem createMarket_submitsOnce (md : CPKService.MarketData)
    (env : CPKService.CreateMarketEnv) :
    SubmitsExactlyOnce (CPKService.createMarket md env) := by
  unfold CPKService.createMarket
  cases md.resolution <;> cases env.account <;> cases env.networkId <;>
    cases md.loadedQuestionId <;> cases env.askQuestionConstant <;>
      cases env.doesConditionExist <;> cases env.predictedMarketMakerAddress
  all_goals first
    | exact submitsExactlyOnce_err _
    | exact submitsExactlyOnce_submitAndWait _ _ _ _ _

/-- `addFunding` submits exactly once. -/
theorem addFunding_submitsOnce (p : CPKService.AddFundingParams)
    (env : CPKService.AddFundingEnv) :
    SubmitsExactlyOnce (CPKService.addFunding p env) := by
  unfold CPKService.addFunding
  cases env.account <;> cases env.networkId <;> cases env.allowance
  all_goals first
    | exact submitsExactlyOnce_err _
    | exact submitsExactlyOnce_submitAndWait _ _ _ _ _

/-- `removeFunding` submits exactly once. -/
theorem removeFunding_submitsOnce (p : CPKService.RemoveFundingParams)
    (env : CPKService.RemoveFundingEnv) :
    SubmitsExactlyOnce (CPKService.removeFunding p env) := by
  unfold CPKService.removeFunding
  cases env.account
  all_goals first
    | exact submitsExactlyOnce_err _
    | exact submitsExactlyOnce_submitAndWait _ _ _ _ _

/-- `redeemPositions` submits exactly once. -/
theorem redeemPositions_submitsOnce (p : CPKService.RedeemPositionsParams)
    (env : CPKService.RedeemPositionsEnv) :
    SubmitsExactlyOnce (CPKService.redeemPositions p env) := by
  unfold CPKService.redeemPositions
  cases env.account <;> cases env.conditionId
  all_goals first
    | exact submitsExactlyOnce_err _
    | exact submitsExactlyOnce_submitAndWait _ _ _ _ _

/-- Claim C8: every workflow (buy, sell, create market, add funding, remove
funding, redeem) performs at most one batch submission, exactly one on its
success path, and zero when a precondition check or a chain read fails before
submission. -/
theorem claim_c8_one_submission_per_intent
    (pb : CPKService.BuyOutcomesParams) (eb : CPKService.BuyOutcomesEnv)
    (ps : CPKService.SellOutcomesParams) (es : CPKService.SellOutcomesEnv)
    (mc : CPKService.MarketData) (ec : CPKService.CreateMarketEnv)
    (pa : CPKService.AddFundingParams) (ea : CPKService.AddFundingEnv)
    (pr : CPKService.RemoveFundingParams) (er : CPKService.RemoveFundingEnv)
    (pd : CPKService.RedeemPositionsParams)
    (ed : CPKService.RedeemPositionsEnv) :
    SubmitsExactlyOnce (CPKService.buyOutcomes pb eb) ∧
    SubmitsExactlyOnce (CPKService.sellOutcomes ps es) ∧
    SubmitsExactlyOnce (CPKService.createMarket mc ec) ∧
    SubmitsExactlyOnce (CPKService.addFunding pa ea) ∧
    SubmitsExactlyOnce (CPKService.removeFunding pr er) ∧
    SubmitsExactlyOnce (CPKService.redeemPositions pd ed) :=
  ⟨buyOutcomes_submitsOnce pb eb, sellOutcomes_submitsOnce ps es,
   createMarket_submitsOnce mc ec, addFunding_submitsOnce pa ea,
   removeFunding_submitsOnce pr er, redeemPositions_submitsOnce pd ed⟩

/-- Concrete parameters for the C8 witness. -/
def sellOutcomesParamsW : CPKService.SellOutcomesParams :=
  { amount := 50, outcomeIndex := 0 }

/-- Concrete environment for the C8 witness. -/
def sellOutcomesEnvW : CPKService.SellOutcomesEnv :=
  { account := some "0xaccount"
    calcSellAmount := some 55
    collateralAddress := some "0xdai"
    isApprovedForAll := some false
    marketMakerAddress := "0xmarket"
    conditionalTokensAddress := "0xconditionaltokens"
    cpkAddress := "0xcpk"
    execTransactions := some 1
    waitForTransaction := some () }

/-- Concrete parameters for the C8 witness. -/
def addFundingParamsW : CPKService.AddFundingParams :=
  { amount := 30, collateral := "0xdai" }

/-- Concrete environment for the C8 witness. -/
def addFundingEnvW : CPKService.AddFundingEnv :=
  { account := some "0xaccount"
    networkId := some 1
    wethAddress := "0xweth"
    allowance := some 0
    marketMakerAddress := "0xmarket"
    cpkAddress := "0xcpk"
    execTransactions := some 1
    waitForTransaction := some () }

/-- Claim C8 witness: the one-submission theorem applied at concrete inputs,
once on a successful buy run and once on a buy run whose first chain read
fails. -/
theorem claim_c8_witness :
    (CPKService.buyOutcomes buyOutcomesParamsW buyOutcomesEnvEnough).2.length = 1 ∧
    (CPKService.buyOutcomes buyOutcomesParamsW
        { buyOutcomesEnvEnough with account := none }).2 = [] := by
  constructor
  · have h := (claim_c8_one_submission_per_intent buyOutcomesParamsW
      buyOutcomesEnvEnough sellOutcomesParamsW sellOutcomesEnvW marketDataToken
      createMarketEnvW addFundingParamsW addFundingEnvW removeFundingParamsW
      removeFundingEnvW redeemZeroParams redeemZeroEnv).1
    unfold SubmitsExactlyOnce at h
    exact h.2.1 () rfl
  · have h := (claim_c8_one_submission_per_intent buyOutcomesParamsW
      { buyOutcomesEnvEnough with account := none } sellOutcomesParamsW
      sellOutcomesEnvW marketDataToken createMarketEnvW addFundingParamsW
      addFundingEnvW removeFundingParamsW removeFundingEnvW redeemZeroParams
      redeemZeroEnv).1
    unfold SubmitsExactlyOnce at h
    exact h.2.2.1 rfl

/-- Concrete redeem parameters with an unresolved condition and no earned
collateral, for the C2 witness. -/
def redeemParamsW : CPKService.RedeemPositionsParams :=
  { isConditionResolved := false
    question := { id := "0xquestion", templateId := 2, raw := "raw" }
    numOutcomes := 2
    earnedCollateral := none
    collateralTokenAddress := "0xdai" }

/-- Claim C2 witness: the amended redeem theorem applied at a concrete input
with an unresolved condition and an absent earned collateral; the batch is
the resolve call followed by the redeem call and no transfer. -/
theorem claim_c2_witness :
    redeemZeroEnv.account = some "0xaccount" ∧
    redeemZeroEnv.conditionId = some "0xcondition" ∧
    (CPKService.redeemPositions redeemParamsW redeemZeroEnv).2.map
        Submission.transactions =
      [ [ { «to» := "0xoracle"
            data := some (CallData.resolveCondition "0xquestion" 2 "raw" 2) },
          { «to» := "0xconditionaltokens"
            data := some (CallData.redeemPositions "0xdai" "0xcondition" 2) } ] ] := by
  refine ⟨rfl, rfl, ?_⟩
  have h := (claim_c2_amended_redeemPositions redeemParamsW redeemZeroEnv
    "0xaccount" "0xcondition" rfl rfl).1
  simpa using h
